import Mathlib

/-
Verification of the nat_mcp_template repository against its specification.

The repository has two Python source files:
  src/pdf_reader/src/pdf_reader/pdf_reader_function.py      (read_pdf)
  src/llm_summarizer/src/llm_summarizer/llm_summarizer_function.py
                                                            (summarize_text)

Shallow embedding conventions:
  Python strings are modelled by Lean String, read as a sequence of code
  points, so len(s) is s.length and s[:n] is s.take n.
  The PyMuPDF backend is modelled through an abstract file system: each
  page is modelled by the outcome of its get_text() call, which either
  returns a string or raises.  Raising Python exceptions is modelled by
  the Except monad; the module-level fitz import is environmental and is
  not modelled (it cannot fail inside one call in a fixed environment).
-/

/-- Whitespace test matching the characters Python str.strip removes in
the ASCII range. -/
def pyIsSpace (c : Char) : Bool :=
  c == ' ' || c == '\t' || c == '\n' || c == '\r' || c == '\x0b' || c == '\x0c'

/-- Truthiness of text.strip() in Python: true exactly when some character
of the string is not whitespace. -/
def pyStripTruthy (s : String) : Bool :=
  s.data.any (fun c => !(pyIsSpace c))

/-- Helper for substring search: does the first list start with the
second one. -/
def startsWithL : List Char → List Char → Bool
  | _, [] => true
  | [], _ :: _ => false
  | a :: as, b :: bs => a == b && startsWithL as bs

/-- Helper for substring search: does pat occur contiguously inside the
second list. -/
def containsL (pat : List Char) : List Char → Bool
  | [] => startsWithL [] pat
  | a :: as => startsWithL (a :: as) pat || containsL pat as

/-- Occurrence of pat as a contiguous substring of s, as in the Python
test pat in s. -/
def strContainsSub (s pat : String) : Bool :=
  containsL pat.data s.data

/-
Embedding of llm_summarizer_function.py.
-/

/-- The fields of LLMSummarizerConfig that summarize_text reads.  The
description and llm_name fields do not influence the prompt or the
returned summary and are omitted. -/
structure LLMSummarizerConfig where
  max_summary_length : Int
  include_key_points : Bool
  summary_style : String
deriving DecidableEq

/-- The lookup style_instructions.get(config.summary_style, default) of
summarize_text, lines 74 to 83, with the comprehensive entry as the
default value. -/
def style_instruction (summary_style : String) : String :=
  if summary_style = "brief" then
    "Create a brief, concise summary in 2-3 sentences."
  else if summary_style = "comprehensive" then
    "Create a comprehensive summary that captures all major points."
  else if summary_style = "detailed" then
    "Create a detailed summary with thorough analysis of all key aspects."
  else
    "Create a comprehensive summary that captures all major points."

/-- The conditional expression on the truncation marker line of the
prompt f-string, line 107 of llm_summarizer_function.py. -/
def trunc_marker (text : String) : String :=
  if text.length > 10000 then "..." else ""

/-- The prompt f-string built inside summarize_text, lines 89 to 110 of
llm_summarizer_function.py.  The hash sign sequence on the excerpt line
is literal prompt text: the Python comment sits inside the triple-quoted
f-string, so it is part of the string value. -/
def summarize_prompt (config : LLMSummarizerConfig) (text : String) : String :=
  "You are an expert at analyzing and summarizing documents.\n\nPlease analyze the following text and provide a summary.\n\n"
    ++ style_instruction config.summary_style
    ++ "\nTarget length: approximately " ++ toString config.max_summary_length ++ " words."
    ++ (if config.include_key_points then "\n\nAfter the summary, provide 5-7 key points as bullet points." else "")
    ++ "\n\nFormat your response as:\n\n## Summary\n[Your summary here]\n"
    ++ (if config.include_key_points then "## Key Points\n- [Point 1]\n- [Point 2]\n..." else "")
    ++ "\n\nText to summarize:\n---\n"
    ++ text.take 10000
    ++ "  # Limit input to avoid token limits" ++ "\n"
    ++ trunc_marker text
    ++ "\n---\n\nSummary:"

/-- The part of the prompt that precedes the embedded excerpt.  It
depends only on the configuration, never on the input text. -/
def promptHead (config : LLMSummarizerConfig) : String :=
  "You are an expert at analyzing and summarizing documents.\n\nPlease analyze the following text and provide a summary.\n\n"
    ++ style_instruction config.summary_style
    ++ "\nTarget length: approximately " ++ toString config.max_summary_length ++ " words."
    ++ (if config.include_key_points then "\n\nAfter the summary, provide 5-7 key points as bullet points." else "")
    ++ "\n\nFormat your response as:\n\n## Summary\n[Your summary here]\n"
    ++ (if config.include_key_points then "## Key Points\n- [Point 1]\n- [Point 2]\n..." else "")
    ++ "\n\nText to summarize:\n---\n"

/-- The loosely-typed backend response value of summarize_text: it may
expose a textual content field (hasattr(response, content)), and str()
of the whole value is always available. -/
structure Response where
  content? : Option String
  str_repr : String
deriving DecidableEq

/-- The response normalization of summarize_text, lines 117 to 121: use
the content field when the response exposes one, otherwise coerce the
whole value with str(). -/
def normalizeResponse (response : Response) : String :=
  match response.content? with
  | some c => c
  | none => response.str_repr

/-- The body of summarize_text with the backend capability passed as a
function: build the prompt, invoke the backend, normalize the response. -/
def summarize_text (config : LLMSummarizerConfig) (llm : String → Response)
    (text : String) : String :=
  normalizeResponse (llm (summarize_prompt config text))

/-
Embedding of pdf_reader_function.py.
-/

/-- Python exception values that appear in read_pdf.  fileNotFound models
FileNotFoundError, pageError models any fault raised by the PDF backend
while opening the file or extracting a page, runtimeError models
RuntimeError.  str() of each carries its message. -/
inductive PyErr where
  | fileNotFound (msg : String)
  | pageError (msg : String)
  | runtimeError (msg : String)
deriving DecidableEq

/-- str(e) for the modelled Python exceptions. -/
def pyErrStr : PyErr → String
  | .fileNotFound msg => msg
  | .pageError msg => msg
  | .runtimeError msg => msg

deriving instance DecidableEq for Except

/-- An open PDF document: each entry models the outcome of calling
page.get_text() on the corresponding page. -/
structure PdfDoc where
  pages : List (Except PyErr String)
deriving DecidableEq

/-- A document all of whose pages extract successfully, given by the
extracted texts. -/
def docOfTexts (texts : List String) : PdfDoc :=
  ⟨texts.map (fun t => Except.ok t)⟩

/-- Resource state of the document handle over one read_pdf call:
whether fitz.open ran successfully and whether doc.close() ran. -/
structure PdfTrace where
  opened : Bool
  closed : Bool
deriving DecidableEq

/-- The ambient file system plus PDF backend seen by read_pdf:
path_exists models Path(pdf_path).exists() and fitz_open models
fitz.open(pdf_path), which either yields a document or raises. -/
structure FS where
  path_exists : String → Bool
  fitz_open : String → Except PyErr PdfDoc

/-- The fields of PDFReaderConfig.  max_pages is int or None in the
source; the description field does not influence read_pdf. -/
structure PDFReaderConfig where
  description : String
  max_pages : Option Int
deriving DecidableEq

/-- The Python expression config.max_pages or len(doc) of line 73: None
and 0 are falsy, so both are replaced by the page count. -/
def pyOrMaxPages (max_pages : Option Int) (n : Nat) : Int :=
  match max_pages with
  | none => (n : Int)
  | some k => if k = 0 then (n : Int) else k

/-- Number of loop iterations of line 75: range(min(len(doc), max_pages)),
empty when the minimum is negative. -/
def scanCount (max_pages : Option Int) (n : Nat) : Nat :=
  (min (n : Int) (pyOrMaxPages max_pages n)).toNat

/-- The page loop of lines 75 to 80 over the pages it visits, starting
at 0-based index n: extract each page text (propagating a raised
exception, which aborts the loop) and collect a marked block for every
page whose text has non-whitespace content. -/
def scanPages : List (Except PyErr String) → Nat → Except PyErr (List String)
  | [], _ => .ok []
  | p :: rest, n =>
    match p with
    | .error e => .error e
    | .ok text =>
      match scanPages rest (n + 1) with
      | .error e => .error e
      | .ok blocks =>
        if pyStripTruthy text then
          .ok (("--- Page " ++ toString (n + 1) ++ " ---\n" ++ text) :: blocks)
        else
          .ok blocks

/-- The Python join "\n\n".join(text_content) of line 85. -/
def joinBlocks : List String → String
  | [] => ""
  | [b] => b
  | b :: rest => b ++ "\n\n" ++ joinBlocks rest

/-- The body of the try block of read_pdf, lines 59 to 91, before the
exception handlers: check existence, open the document, scan the pages,
close the handle, join the blocks, and substitute the sentinel when the
joined text has no content.  The trace records whether the handle was
opened and whether doc.close() was reached. -/
def read_pdf_inner (fs : FS) (config : PDFReaderConfig) (pdf_path : String) :
    Except PyErr String × PdfTrace :=
  if fs.path_exists pdf_path = false then
    (.error (.fileNotFound ("PDF file not found: " ++ pdf_path)), ⟨false, false⟩)
  else
    match fs.fitz_open pdf_path with
    | .error e => (.error e, ⟨false, false⟩)
    | .ok doc =>
      match scanPages (doc.pages.take (scanCount config.max_pages doc.pages.length)) 0 with
      | .error e => (.error e, ⟨true, false⟩)
      | .ok text_content =>
        let full_text := joinBlocks text_content
        if pyStripTruthy full_text = false then
          (.ok "No text content found in PDF", ⟨true, true⟩)
        else
          (.ok full_text, ⟨true, true⟩)

/-- read_pdf with its generic exception handler of lines 98 to 101: any
exception escaping the try block is re-raised as
RuntimeError(f"Error reading PDF: {str(e)}"). -/
def read_pdf (fs : FS) (config : PDFReaderConfig) (pdf_path : String) :
    Except PyErr String × PdfTrace :=
  match read_pdf_inner fs config pdf_path with
  | (.ok s, tr) => (.ok s, tr)
  | (.error e, tr) => (.error (.runtimeError ("Error reading PDF: " ++ pyErrStr e)), tr)

/-- The blocks the page loop collects from a document whose visited
pages all extract successfully, with 0-based start index n. -/
def blocksOf : List String → Nat → List String
  | [], _ => []
  | t :: rest, n =>
    if pyStripTruthy t then
      ("--- Page " ++ toString (n + 1) ++ " ---\n" ++ t) :: blocksOf rest (n + 1)
    else
      blocksOf rest (n + 1)

/-- The string read_pdf returns for a successfully scanned document with
the given collected blocks: the sentinel when nothing was collected,
otherwise the joined blocks. -/
def resultText (blocks : List String) : String :=
  if blocks.isEmpty then "No text content found in PDF" else joinBlocks blocks

/-- Classifier for the document-missing kind of the error taxonomy: is
the outcome a raised FileNotFoundError. -/
def isFileNotFound : Except PyErr String → Bool
  | .error (.fileNotFound _) => true
  | _ => false

/-- Modelled from the spec: the host workflow that wires extraction to
summarization is not under src/ (only the two registered functions are).
Following sections 6 and 7 of the specification, the pipeline runs
extraction first, short-circuits without a backend call when extraction
fails or yields the empty-result sentinel, and otherwise invokes the
summarization backend exactly once on the extracted text.  The second
component counts backend invocations. -/
def pipeline (fs : FS) (pcfg : PDFReaderConfig) (scfg : LLMSummarizerConfig)
    (llm : String → Response) (pdf_path : String) : Except PyErr String × Nat :=
  match read_pdf fs pcfg pdf_path with
  | (.error e, _) => (.error e, 0)
  | (.ok text, _) =>
    if text = "No text content found in PDF" then
      (.ok text, 0)
    else
      (.ok (summarize_text scfg llm text), 1)

/-
Concrete fixtures used by witnesses and counterexamples.
-/

/-- A file system on which no path exists. -/
def emptyFS : FS :=
  ⟨fun _ => false, fun _ => .error (.pageError "unreachable")⟩

/-- A two page document whose pages are whitespace-only and empty. -/
def docBlank : PdfDoc := docOfTexts [" ", ""]

/-- A file system resolving every path to the blank document. -/
def fsBlank : FS := ⟨fun _ => true, fun _ => .ok docBlank⟩

/-- A document whose second page raises inside get_text(). -/
def docBoom : PdfDoc := ⟨[.ok "Hello", .error (.pageError "boom")]⟩

/-- A file system resolving every path to the raising document. -/
def fsBoom : FS := ⟨fun _ => true, fun _ => .ok docBoom⟩

/-- A three page document whose second page is blank. -/
def docThree : PdfDoc := docOfTexts ["A", " ", "B"]

/-- A file system resolving every path to the three page document. -/
def fsThree : FS := ⟨fun _ => true, fun _ => .ok docThree⟩

/-- A four page document whose second page is empty. -/
def docFour : PdfDoc := docOfTexts ["A", "", "B", "C"]

/-- A file system resolving every path to the four page document. -/
def fsFour : FS := ⟨fun _ => true, fun _ => .ok docFour⟩

/-- The reader configuration with no page limit. -/
def cfg_noLimit : PDFReaderConfig :=
  ⟨"Reads a PDF file and extracts text content", none⟩

/-- The reader configuration with max_pages set to 2. -/
def cfg_two : PDFReaderConfig :=
  ⟨"Reads a PDF file and extracts text content", some 2⟩

/-- The summarizer configuration with all defaulted fields. -/
def scfgDefault : LLMSummarizerConfig := ⟨500, true, "comprehensive"⟩

/-- A backend double that answers every prompt with a bare string. -/
def dummyLLM : String → Response := fun p => ⟨none, p⟩

/-
Helper lemmas.
-/

theorem startsWithL_self_append (p ys : List Char) :
    startsWithL (p ++ ys) p = true := by
  induction p with
  | nil =>
    cases ys <;> rfl
  | cons a as ih =>
    simp [startsWithL, ih]

theorem containsL_of_startsWithL (pat l : List Char)
    (h : startsWithL l pat = true) : containsL pat l = true := by
  cases l with
  | nil => simpa [containsL] using h
  | cons a as => simp [containsL, h]

theorem containsL_append_middle (pat xs ys : List Char) :
    containsL pat (xs ++ (pat ++ ys)) = true := by
  induction xs with
  | nil =>
    exact containsL_of_startsWithL pat (pat ++ ys) (startsWithL_self_append pat ys)
  | cons a as ih =>
    simp [containsL, ih]

theorem pyStripTruthy_append_left (s t : String)
    (h : pyStripTruthy s = true) : pyStripTruthy (s ++ t) = true := by
  simp only [pyStripTruthy, String.data_append, List.any_append]
  simp only [pyStripTruthy] at h
  simp [h]

theorem pyStripTruthy_block (a b c : String) :
    pyStripTruthy ("--- Page " ++ a ++ b ++ c) = true := by
  rw [String.append_assoc, String.append_assoc]
  exact pyStripTruthy_append_left _ _ (by decide)

theorem joinBlocks_cons_truthy (b : String) (bs : List String)
    (h : pyStripTruthy b = true) :
    pyStripTruthy (joinBlocks (b :: bs)) = true := by
  cases bs with
  | nil => simpa [joinBlocks] using h
  | cons c cs =>
    show pyStripTruthy (b ++ "\n\n" ++ joinBlocks (c :: cs)) = true
    rw [String.append_assoc]
    exact pyStripTruthy_append_left _ _ h

theorem blocksOf_mem_truthy (ts : List String) (n : Nat) (b : String)
    (h : b ∈ blocksOf ts n) : pyStripTruthy b = true := by
  induction ts generalizing n with
  | nil => simp [blocksOf] at h
  | cons t rest ih =>
    by_cases ht : pyStripTruthy t
    · simp only [blocksOf, if_pos ht, List.mem_cons] at h
      rcases h with h | h
      · subst h
        exact pyStripTruthy_block _ _ _
      · exact ih _ h
    · simp only [blocksOf, if_neg ht] at h
      exact ih _ h

theorem scanPages_map_ok (ts : List String) (n : Nat) :
    scanPages (ts.map (fun t => Except.ok t)) n = .ok (blocksOf ts n) := by
  induction ts generalizing n with
  | nil => rfl
  | cons t rest ih =>
    simp only [List.map_cons, scanPages, ih, blocksOf]
    by_cases ht : pyStripTruthy t <;> simp [ht]

theorem blocksOf_length (ts : List String) (n : Nat) :
    (blocksOf ts n).length = ts.countP pyStripTruthy := by
  induction ts generalizing n with
  | nil => rfl
  | cons t rest ih =>
    by_cases ht : pyStripTruthy t <;>
      simp [blocksOf, ht, List.countP_cons, ih]

theorem blocksOf_enumFrom (ts : List String) (n : Nat) :
    blocksOf ts n
      = ((List.enumFrom n ts).filter fun p => pyStripTruthy p.2).map
          (fun p => "--- Page " ++ toString (p.1 + 1) ++ " ---\n" ++ p.2) := by
  induction ts generalizing n with
  | nil => rfl
  | cons t rest ih =>
    by_cases ht : pyStripTruthy t <;>
      simp [blocksOf, List.enumFrom, List.filter_cons, ht, ih]

theorem blocksOf_nil_of_blank (ts : List String) (n : Nat)
    (h : ∀ t ∈ ts, pyStripTruthy t = false) : blocksOf ts n = [] := by
  induction ts generalizing n with
  | nil => rfl
  | cons t rest ih =>
    have ht := h t (List.mem_cons_self t rest)
    simp only [blocksOf, ht, Bool.false_eq_true, if_false]
    exact ih _ (fun u hu => h u (List.mem_cons_of_mem t hu))

theorem scanCount_none (n : Nat) : scanCount none n = n := by
  simp [scanCount, pyOrMaxPages]

theorem scanCount_some_pos (K n : Nat) (hK : 1 ≤ K) :
    scanCount (some (K : Int)) n = min n K := by
  have hne : (K : Int) ≠ 0 := by exact_mod_cast Nat.one_le_iff_ne_zero.mp hK
  simp only [scanCount, pyOrMaxPages, if_neg hne]
  omega

theorem take_min_length {α : Type} (l : List α) (k : Nat) :
    l.take (min l.length k) = l.take k := by
  rcases Nat.le_total l.length k with h | h
  · rw [Nat.min_eq_left h, List.take_length, List.take_of_length_le h]
  · rw [Nat.min_eq_right h]

theorem read_pdf_inner_ok_doc (fs : FS) (config : PDFReaderConfig)
    (pdf_path : String) (texts : List String)
    (h1 : fs.path_exists pdf_path = true)
    (h2 : fs.fitz_open pdf_path = .ok (docOfTexts texts)) :
    read_pdf_inner fs config pdf_path
      = (.ok (resultText (blocksOf (texts.take (scanCount config.max_pages texts.length)) 0)),
         ⟨true, true⟩) := by
  have hscan : scanPages ((docOfTexts texts).pages.take
        (scanCount config.max_pages (docOfTexts texts).pages.length)) 0
      = .ok (blocksOf (texts.take (scanCount config.max_pages texts.length)) 0) := by
    show scanPages ((texts.map (fun t => Except.ok t)).take
        (scanCount config.max_pages (texts.map (fun t => Except.ok t)).length)) 0 = _
    rw [List.length_map, ← List.map_take, scanPages_map_ok]
  unfold read_pdf_inner
  rw [h1, h2]
  simp only [hscan]
  rcases hbl : blocksOf (texts.take (scanCount config.max_pages texts.length)) 0
    with _ | ⟨b, bs⟩
  · simp [resultText, joinBlocks, pyStripTruthy]
  · have hmem : b ∈ blocksOf (texts.take (scanCount config.max_pages texts.length)) 0 := by
      rw [hbl]
      exact List.mem_cons_self b bs
    have hb := joinBlocks_cons_truthy b bs (blocksOf_mem_truthy _ _ b hmem)
    simp [resultText, hb]

theorem read_pdf_ok_doc (fs : FS) (config : PDFReaderConfig)
    (pdf_path : String) (texts : List String)
    (h1 : fs.path_exists pdf_path = true)
    (h2 : fs.fitz_open pdf_path = .ok (docOfTexts texts)) :
    read_pdf fs config pdf_path
      = (.ok (resultText (blocksOf (texts.take (scanCount config.max_pages texts.length)) 0)),
         ⟨true, true⟩) := by
  unfold read_pdf
  rw [read_pdf_inner_ok_doc fs config pdf_path texts h1 h2]

/-
Claim theorems.
-/

/-- Claim C7: for every style value outside brief, comprehensive and
detailed, with the text and the other configuration fields fixed, the
prompt built by summarize_text is identical to the prompt built with the
comprehensive style, so it carries the same instruction clause: an
unrecognized style resolves to comprehensive rather than failing. -/
theorem unrecognized_style_is_comprehensive (ml : Int) (kp : Bool)
    (s text : String)
    (h1 : s ≠ "brief") (h2 : s ≠ "comprehensive") (h3 : s ≠ "detailed") :
    summarize_prompt ⟨ml, kp, s⟩ text
      = summarize_prompt ⟨ml, kp, "comprehensive"⟩ text := by
  simp [summarize_prompt, style_instruction, h1, h2, h3]

/-- Claim C7 witness: the style value extreme is unrecognized and
produces the comprehensive prompt. -/
theorem unrecognized_style_is_comprehensive_witness :
    summarize_prompt ⟨500, true, "extreme"⟩ "sample text"
      = summarize_prompt ⟨500, true, "comprehensive"⟩ "sample text" :=
  unrecognized_style_is_comprehensive 500 true "extreme" "sample text"
    (by decide) (by decide) (by decide)

/-- Claim C8: normalization returns the content field whenever the
response exposes one, and the str() coercion of the whole value
otherwise; as a total function into String it yields a string for every
response shape and never fails. -/
theorem normalize_response_shapes (c s : String) :
    normalizeResponse ⟨some c, s⟩ = c ∧ normalizeResponse ⟨none, s⟩ = s :=
  ⟨rfl, rfl⟩

/-- Any string occurs as a substring of a concatenation that carries it
in the middle. -/
theorem strContainsSub_middle (a pat b : String) :
    strContainsSub (a ++ (pat ++ b)) pat = true := by
  unfold strContainsSub
  rw [String.data_append, String.data_append]
  exact containsL_append_middle _ _ _

/-- Claim C9: for every input text and configuration, the prompt carries
the literal character sequence of the Python comment directly after the
embedded excerpt and before the truncation marker line, even when no
truncation occurs, because the comment sits inside the triple-quoted
f-string and is sent to the backend as prompt text. -/
theorem prompt_carries_comment_literal (config : LLMSummarizerConfig)
    (text : String) :
    summarize_prompt config text
      = promptHead config ++ text.take 10000
          ++ "  # Limit input to avoid token limits" ++ "\n"
          ++ trunc_marker text ++ "\n---\n\nSummary:"
    ∧ strContainsSub (summarize_prompt config text)
        "  # Limit input to avoid token limits" = true := by
  have hdec : summarize_prompt config text
      = promptHead config ++ text.take 10000
          ++ "  # Limit input to avoid token limits" ++ "\n"
          ++ trunc_marker text ++ "\n---\n\nSummary:" := by
    simp only [summarize_prompt, promptHead, String.append_assoc]
  refine ⟨hdec, ?_⟩
  have hdec2 : summarize_prompt config text
      = (promptHead config ++ text.take 10000)
          ++ ("  # Limit input to avoid token limits"
              ++ ("\n" ++ (trunc_marker text ++ "\n---\n\nSummary:"))) := by
    simp only [summarize_prompt, promptHead, String.append_assoc]
  rw [hdec2]
  exact strContainsSub_middle _ _ _

theorem containsL_append_right (pat : List Char) (xs l : List Char)
    (h : containsL pat l = true) : containsL pat (xs ++ l) = true := by
  induction xs with
  | nil => simpa using h
  | cons a as ih => simp [containsL, ih]

theorem strContainsSub_append_right (a b pat : String)
    (h : strContainsSub b pat = true) : strContainsSub (a ++ b) pat = true := by
  unfold strContainsSub at h ⊢
  rw [String.data_append]
  exact containsL_append_right _ _ _ h

theorem strContainsSub_self_append (pat b : String) :
    strContainsSub (pat ++ b) pat = true := by
  unfold strContainsSub
  rw [String.data_append]
  exact containsL_of_startsWithL _ _ (startsWithL_self_append _ _)

/-- Claim C1 counterexample: with the default configuration, which
includes key points, the three dot string of the truncation marker
occurs in the prompt built for a one character input, whose length does
not exceed 10000 characters, because the key points format section of
the template ends with the same three dots; so the marker string does
not appear in the prompt if and only if the input exceeds the bound. -/
theorem marker_in_prompt_without_truncation :
    strContainsSub (summarize_prompt scfgDefault "a") "..." = true
    ∧ ("a" : String).length ≤ 10000 := by
  refine ⟨?_, by decide⟩
  have hsplit : ("## Key Points\n- [Point 1]\n- [Point 2]\n..." : String)
      = "## Key Points\n- [Point 1]\n- [Point 2]\n" ++ "..." := by decide
  have e1 : summarize_prompt scfgDefault "a"
      = "You are an expert at analyzing and summarizing documents.\n\nPlease analyze the following text and provide a summary.\n\n"
          ++ style_instruction "comprehensive"
          ++ "\nTarget length: approximately " ++ toString (500 : Int) ++ " words."
          ++ "\n\nAfter the summary, provide 5-7 key points as bullet points."
          ++ "\n\nFormat your response as:\n\n## Summary\n[Your summary here]\n"
          ++ "## Key Points\n- [Point 1]\n- [Point 2]\n..."
          ++ "\n\nText to summarize:\n---\n"
          ++ ("a" : String).take 10000
          ++ "  # Limit input to avoid token limits" ++ "\n"
          ++ trunc_marker "a"
          ++ "\n---\n\nSummary:" := rfl
  rw [hsplit] at e1
  simp only [String.append_assoc] at e1
  rw [e1]
  apply strContainsSub_append_right
  apply strContainsSub_append_right
  apply strContainsSub_append_right
  apply strContainsSub_append_right
  apply strContainsSub_append_right
  apply strContainsSub_append_right
  apply strContainsSub_append_right
  apply strContainsSub_append_right
  exact strContainsSub_self_append _ _

/-- Claim C1 amended: the prompt embeds only the first 10000 characters
of the text, after a head that does not depend on the text; the
dedicated truncation marker line that follows the excerpt line holds the
marker exactly when the input length exceeds 10000 characters and is
empty otherwise.  The marker line is separated from the embedded excerpt
by the literal comment text on the excerpt line, and the three dot
string can additionally occur elsewhere in the prompt (the key points
format section) independently of the input length, so the if and only if
holds for the marker line, not for substring occurrence in the whole
prompt. -/
theorem prompt_truncation_marker_line (config : LLMSummarizerConfig)
    (text : String) :
    summarize_prompt config text
      = promptHead config ++ text.take 10000
          ++ "  # Limit input to avoid token limits" ++ "\n"
          ++ trunc_marker text ++ "\n---\n\nSummary:"
    ∧ (trunc_marker text = "..." ↔ 10000 < text.length)
    ∧ (trunc_marker text = "" ↔ text.length ≤ 10000) := by
  refine ⟨by simp only [summarize_prompt, promptHead, String.append_assoc], ?_, ?_⟩
  · by_cases h : text.length > 10000
    · have hm : trunc_marker text = "..." := by simp [trunc_marker, h]
      rw [hm]
      exact ⟨fun _ => h, fun _ => rfl⟩
    · have hm : trunc_marker text = "" := by simp [trunc_marker, h]
      rw [hm]
      constructor
      · intro habs
        exact absurd habs (by decide)
      · intro hlt
        exact absurd hlt h
  · by_cases h : text.length > 10000
    · have hm : trunc_marker text = "..." := by simp [trunc_marker, h]
      rw [hm]
      constructor
      · intro habs
        exact absurd habs (by decide)
      · intro hle
        exact absurd hle (by omega)
    · have hm : trunc_marker text = "" := by simp [trunc_marker, h]
      rw [hm]
      constructor
      · intro _
        omega
      · intro _
        rfl

/-- Claim C2 counterexample: for a path that does not resolve, the
failure that reaches the caller of read_pdf is not of the document
missing kind: the generic handler has re-raised it as RuntimeError, the
same delivered type as any extraction fault, with only the message
recording the missing file. -/
theorem missing_file_not_delivered_as_notfound :
    isFileNotFound (read_pdf emptyFS cfg_noLimit "missing.pdf").1 = false
    ∧ (read_pdf emptyFS cfg_noLimit "missing.pdf").1
        = .error (.runtimeError "Error reading PDF: PDF file not found: missing.pdf") := by
  constructor
  · rfl
  · decide

/-- Claim C2 amended: for every path that does not resolve to an
existing file, read_pdf raises the document missing failure
(FileNotFoundError) before ever opening the document, the generic
handler re-raises it to the caller as RuntimeError with the message
prefix naming the missing file (so the NotFound kind is distinguishable
only by message, not by the delivered exception type), and the
summarization backend is never invoked for that call. -/
theorem missing_file_wrapped_notfound (fs : FS) (pcfg : PDFReaderConfig)
    (scfg : LLMSummarizerConfig) (llm : String → Response) (pdf_path : String)
    (h : fs.path_exists pdf_path = false) :
    (read_pdf_inner fs pcfg pdf_path).1
        = .error (.fileNotFound ("PDF file not found: " ++ pdf_path))
    ∧ read_pdf fs pcfg pdf_path
        = (.error (.runtimeError ("Error reading PDF: " ++ ("PDF file not found: " ++ pdf_path))),
           ⟨false, false⟩)
    ∧ (pipeline fs pcfg scfg llm pdf_path).2 = 0 := by
  have hin : read_pdf_inner fs pcfg pdf_path
      = (.error (.fileNotFound ("PDF file not found: " ++ pdf_path)), ⟨false, false⟩) := by
    unfold read_pdf_inner
    rw [h]
    rfl
  have hr : read_pdf fs pcfg pdf_path
      = (.error (.runtimeError ("Error reading PDF: " ++ ("PDF file not found: " ++ pdf_path))),
         ⟨false, false⟩) := by
    unfold read_pdf
    rw [hin]
    rfl
  refine ⟨by rw [hin], hr, ?_⟩
  unfold pipeline
  rw [hr]

/-- Claim C2 witness: the empty file system rejects the missing path and
the backend invocation count of the pipeline is zero. -/
theorem missing_file_wrapped_notfound_witness :
    emptyFS.path_exists "missing.pdf" = false
    ∧ (pipeline emptyFS cfg_noLimit scfgDefault dummyLLM "missing.pdf").2 = 0 :=
  ⟨rfl, (missing_file_wrapped_notfound emptyFS cfg_noLimit scfgDefault dummyLLM
      "missing.pdf" rfl).2.2⟩

/-- Claim C3, code bug evaluation: on a document whose second page
raises inside get_text(), read_pdf re-raises the wrapped error while the
trace records that the handle was opened but doc.close() was never
reached: the close call sits on the straight-line path with no finally
block, so the handle is not released on the exception exit path. -/
theorem page_exception_leaks_handle :
    read_pdf fsBoom cfg_noLimit "boom.pdf"
      = (.error (.runtimeError "Error reading PDF: boom"), ⟨true, false⟩)
    ∧ (read_pdf fsBoom cfg_noLimit "boom.pdf").2.closed = false
    ∧ (read_pdf fsBoom cfg_noLimit "boom.pdf").2.opened = true := by
  refine ⟨?_, rfl, rfl⟩
  decide

/-- Claim C4: when every page the extractor scans yields only
whitespace, read_pdf returns the sentinel string as a successful result,
the sentinel is not the empty string, and the pipeline never invokes the
summarization backend. -/
theorem blank_pages_sentinel (fs : FS) (pcfg : PDFReaderConfig)
    (scfg : LLMSummarizerConfig) (llm : String → Response)
    (pdf_path : String) (texts : List String)
    (h1 : fs.path_exists pdf_path = true)
    (h2 : fs.fitz_open pdf_path = .ok (docOfTexts texts))
    (h3 : ∀ t ∈ texts.take (scanCount pcfg.max_pages texts.length),
        pyStripTruthy t = false) :
    read_pdf fs pcfg pdf_path = (.ok "No text content found in PDF", ⟨true, true⟩)
    ∧ "No text content found in PDF" ≠ ""
    ∧ (pipeline fs pcfg scfg llm pdf_path).2 = 0 := by
  have hb := blocksOf_nil_of_blank _ 0 h3
  have hr := read_pdf_ok_doc fs pcfg pdf_path texts h1 h2
  rw [hb] at hr
  have hr2 : read_pdf fs pcfg pdf_path
      = (.ok "No text content found in PDF", ⟨true, true⟩) := by
    rw [hr]
    rfl
  refine ⟨hr2, by decide, ?_⟩
  unfold pipeline
  rw [hr2]
  rfl

/-- Claim C4 witness: a two page document with a whitespace-only page
and an empty page produces the sentinel and no backend call. -/
theorem blank_pages_sentinel_witness :
    fsBlank.path_exists "blank.pdf" = true
    ∧ (pipeline fsBlank cfg_noLimit scfgDefault dummyLLM "blank.pdf").2 = 0 :=
  ⟨rfl, (blank_pages_sentinel fsBlank cfg_noLimit scfgDefault dummyLLM
      "blank.pdf" [" ", ""] rfl rfl (by decide)).2.2⟩

/-- Claim C5: for a document whose pages all extract successfully and a
page limit K of at least 1, the extractor scans exactly the first
min(N, K) pages and the number of collected page blocks equals
min(K, number of non-blank pages among the first K pages); read_pdf
returns those blocks joined, or the sentinel when none were collected. -/
theorem block_count_formula (fs : FS) (pcfg : PDFReaderConfig)
    (pdf_path : String) (texts : List String) (K : Nat)
    (hK : 1 ≤ K) (hmp : pcfg.max_pages = some (K : Int))
    (h1 : fs.path_exists pdf_path = true)
    (h2 : fs.fitz_open pdf_path = .ok (docOfTexts texts)) :
    scanCount pcfg.max_pages texts.length = min texts.length K
    ∧ (blocksOf (texts.take (scanCount pcfg.max_pages texts.length)) 0).length
        = min K ((texts.take K).countP pyStripTruthy)
    ∧ read_pdf fs pcfg pdf_path
        = (.ok (resultText (blocksOf (texts.take (scanCount pcfg.max_pages texts.length)) 0)),
           ⟨true, true⟩) := by
  have hsc : scanCount pcfg.max_pages texts.length = min texts.length K := by
    rw [hmp]
    exact scanCount_some_pos K texts.length hK
  refine ⟨hsc, ?_, read_pdf_ok_doc fs pcfg pdf_path texts h1 h2⟩
  rw [hsc, take_min_length, blocksOf_length]
  have hle : (texts.take K).countP pyStripTruthy ≤ K :=
    le_trans (List.countP_le_length _) (List.length_take_le K texts)
  omega

/-- Claim C5 witness: a four page document with its second page empty
and a limit of 2 collects one block, matching the formula. -/
theorem block_count_formula_witness :
    (blocksOf ((["A", "", "B", "C"] : List String).take
        (scanCount cfg_two.max_pages (["A", "", "B", "C"] : List String).length)) 0).length
      = min 2 (((["A", "", "B", "C"] : List String).take 2).countP pyStripTruthy) :=
  (block_count_formula fsFour cfg_two "four.pdf" ["A", "", "B", "C"] 2
      (by decide) rfl rfl rfl).2.1

/-- Claim C6: with no page limit, the collected blocks are exactly the
non-blank pages in source order, each prefixed with a marker carrying
its 1-based source page number (not a renumbered sequence), blank pages
being skipped with no placeholder; read_pdf returns these blocks joined
in source order. -/
theorem page_blocks_markers (fs : FS) (pcfg : PDFReaderConfig)
    (pdf_path : String) (texts : List String)
    (hmp : pcfg.max_pages = none)
    (h1 : fs.path_exists pdf_path = true)
    (h2 : fs.fitz_open pdf_path = .ok (docOfTexts texts)) :
    blocksOf texts 0
      = ((texts.enum.filter fun p => pyStripTruthy p.2).map
          fun p => "--- Page " ++ toString (p.1 + 1) ++ " ---\n" ++ p.2)
    ∧ read_pdf fs pcfg pdf_path
      = (.ok (resultText (blocksOf texts 0)), ⟨true, true⟩) := by
  constructor
  · rw [blocksOf_enumFrom]
    rfl
  · have hr := read_pdf_ok_doc fs pcfg pdf_path texts h1 h2
    rw [hmp, scanCount_none, List.take_length] at hr
    exact hr

/-- Claim C6 witness: a three page document whose second page is blank
yields exactly the blocks for pages 1 and 3, numbered by source page. -/
theorem page_blocks_markers_witness :
    read_pdf fsThree cfg_noLimit "three.pdf"
      = (.ok "--- Page 1 ---\nA\n\n--- Page 3 ---\nB", ⟨true, true⟩) := by
  have h := (page_blocks_markers fsThree cfg_noLimit "three.pdf"
      ["A", " ", "B"] rfl rfl rfl).2
  rw [h]
  decide

/-- Claim C10: a configured max_pages of 0 behaves exactly as no limit:
the Python or expression replaces the falsy 0 by the page count, so the
scan covers every page of the document and read_pdf coincides with the
unlimited configuration on every file system and path. -/
theorem max_pages_zero_scans_all (fs : FS) (d : String) (pdf_path : String)
    (n : Nat) :
    scanCount (some 0) n = n
    ∧ read_pdf fs ⟨d, some 0⟩ pdf_path = read_pdf fs ⟨d, none⟩ pdf_path := by
  constructor
  · simp [scanCount, pyOrMaxPages]
  · have hsc : scanCount (some 0) = scanCount none := by
      funext m
      simp [scanCount, pyOrMaxPages]
    simp [read_pdf, read_pdf_inner, hsc]
